import Mathlib

/-!
# terraformproviders: the two resource adapters, embedded

Two Go packages are embedded here.

* `src/terraformkubectl/resource_kubectl_manifest.go` (namespace `kubectl`):
  the manifest resource, which shells out to `kubectl`.
* `src/terraformkind/clusterkind/resource_kind_cluster.go` (namespace `clusterkind`):
  the cluster resource, which drives the kind `cluster.Provider`.

Conventions of the embedding.

* A Go `error` is its message (`String`); `nil` is `none`.
* `diag.Diagnostics` is a list of diagnostics; the `nil` of Go and the empty slice
  `diag.Diagnostics{}` are both `[]`.  The only `!= nil` test on diagnostics in
  the source (in `resourceKindClusterUpdate`) is applied to a value that is
  either the literal `nil` or `diag.FromErr` of a non-nil error.
* External collaborators (the file system and the `kubectl` executable, the
  kind provider, `d.Set` of the plugin SDK) are parameters: records of
  functions over an arbitrary world type `W`, threaded through every call.
* Every operation gives, next to its diagnostics, the updated resource data,
  the world it leaves and the list of backend calls it issued, in order.
* An element of a `[]interface{}` that the SDK delivers is an `Option`: `none`
  is the nil interface value.  The SDK delivers nil for a block whose
  attributes are all zero and for an empty string in a list of strings.  An
  unchecked type assertion `x.(T)` on a value that is not a `T` does not
  return: the operation ends in a `Crash`, which keeps the world and the
  calls issued up to that point.
-/

namespace diag

/-- Severity of a diagnostic (`diag.Error`, `diag.Warning`). -/
inductive Severity where
  | Error
  | Warning
  deriving DecidableEq, Repr

/-- One diagnostic of the plugin SDK, with the fields `diag.FromErr` fills. -/
structure Diagnostic where
  Severity : Severity
  Summary : String
  Detail : String
  deriving DecidableEq, Repr

/-- Type `diag.Diagnostics` of the SDK. -/
abbrev Diagnostics := List Diagnostic

/-- Function `diag.FromErr` of the SDK on a non-nil error: one `Error` diagnostic
whose summary is the message of the error. -/
def FromErr (err : String) : Diagnostics :=
  [{ Severity := Severity.Error, Summary := err, Detail := "" }]

/-- Method `Diagnostics.HasError` of the SDK. -/
def HasError (ds : Diagnostics) : Bool :=
  ds.any (fun x => decide (x.Severity = Severity.Error))

end diag

/-! ## `resource_kubectl_manifest.go` -/

namespace kubectl

open diag

/-- The `schema.ResourceData` of `resourceKubectlManifest`: the stored id and
the three schema attributes.  `createns` is the `[]interface{}` that
`d.GetOk("createns")` delivers, one element per block in the order of the
configuration: `some ns` is a `map[string]interface{}` whose key `namespace`
holds the string `ns`; `none` is the nil interface value, which the SDK
delivers for a block whose `namespace` is the empty string. -/
structure ResourceData where
  id : String
  manifest_path : String
  kustomize : Bool
  createns : List (Option String)
  deriving DecidableEq, Repr

/-- Method `d.SetId`. -/
def ResourceData.SetId (d : ResourceData) (v : String) : ResourceData :=
  { d with id := v }

/-- Method `d.GetOk("createns")`: the list and whether it is non-zero (non-empty). -/
def ResourceData.GetOk_createns (d : ResourceData) : List (Option String) × Bool :=
  (d.createns, !d.createns.isEmpty)

/-- The operating system as this file uses it.
`StatIsNotExist w p` is `os.IsNotExist(err)` for the `err` of `os.Stat(p)`;
`Abs` is `filepath.Abs`; `CombinedOutput w argv` runs `exec.Command(argv...)`
and gives the next world, the combined output and the error, if any. -/
structure OS (W : Type) where
  StatIsNotExist : W → String → Bool
  Abs : W → String → Except String String
  CombinedOutput : W → List String → W × String × Option String

/-- Outcome of a lifecycle call that returned. -/
structure Result (W : Type) where
  world : W
  d : ResourceData
  cmds : List (List String)
  diags : Diagnostics

/-- Outcome of a lifecycle call that did not return because a type assertion
failed at run time: the world at that point and the commands issued so far. -/
structure Crash (W : Type) where
  world : W
  cmds : List (List String)

/-- How the namespace loop ends: it runs to its end, it returns diagnostics
from inside the loop, or a type assertion fails. -/
inductive LoopExit where
  | completed
  | returned (ds : Diagnostics)
  | crashed
  deriving DecidableEq, Repr

/-- The `for _, nsdata := range namespaces` loop of
`resourceKubectlManifestCreate` (lines 60 to 67): the world afterwards, the
commands issued, and how the loop ended.  On a nil element the assertion
`nsdata.(map[string]interface{})` of line 61 fails before any command is
built for that element. -/
def createNamespaces {W : Type} (os : OS W) :
    W → List (Option String) → W × List (List String) × LoopExit
  | w, [] => (w, [], LoopExit.completed)
  | w, none :: _ => (w, [], LoopExit.crashed)
  | w, some namespace_ :: rest =>
    let cmdns := ["kubectl", "create", "ns", namespace_, "--save-config"]
    match os.CombinedOutput w cmdns with
    | (w1, out, some err) =>
      (w1, [cmdns],
        LoopExit.returned (FromErr ("failed to apply manifest: " ++ err ++ "\n" ++ out)))
    | (w1, _, none) =>
      match createNamespaces os w1 rest with
      | (w2, cmds, r) => (w2, cmdns :: cmds, r)

/-- Function `resourceKubectlManifestCreate`, registered as `CreateContext` and as
`UpdateContext` of the manifest resource. -/
def resourceKubectlManifestCreate {W : Type} (os : OS W) (w : W) (d : ResourceData) :
    Except (Crash W) (Result W) :=
  let manifestPath := d.manifest_path
  let isKustomize := d.kustomize
  if os.StatIsNotExist w manifestPath then
    .ok ⟨w, d, [], FromErr ("manifest files does not exists at: " ++ manifestPath)⟩
  else
    match os.Abs w manifestPath with
    | .error err => .ok ⟨w, d, [], FromErr ("failed to get absolute path: " ++ err)⟩
    | .ok absPath =>
      match (if d.GetOk_createns.2 then createNamespaces os w d.GetOk_createns.1
        else (w, [], LoopExit.completed)) with
      | (w1, cmds, LoopExit.crashed) => .error ⟨w1, cmds⟩
      | (w1, cmds, LoopExit.returned ds) => .ok ⟨w1, d, cmds, ds⟩
      | (w1, cmds, LoopExit.completed) =>
        let cmd :=
          if !isKustomize then ["kubectl", "apply", "-f", absPath]
          else ["kubectl", "apply", "-k", absPath]
        match os.CombinedOutput w1 cmd with
        | (w2, out, some err) =>
          .ok ⟨w2, d, cmds ++ [cmd],
            FromErr ("failed to apply manifest: " ++ err ++ "\n" ++ out)⟩
        | (w2, _, none) => .ok ⟨w2, d.SetId absPath, cmds ++ [cmd], []⟩

/-- Function `resourceKubectlManifestDelete`. -/
def resourceKubectlManifestDelete {W : Type} (os : OS W) (w : W) (d : ResourceData) :
    Result W :=
  let manifestPath := d.manifest_path
  let isKustomize := d.kustomize
  if os.StatIsNotExist w manifestPath then
    ⟨w, d.SetId "", [], []⟩
  else
    match os.Abs w manifestPath with
    | .error err => ⟨w, d, [], FromErr ("failed to get absolute path: " ++ err)⟩
    | .ok absPath =>
      let cmd :=
        if !isKustomize then ["kubectl", "delete", "-f", absPath]
        else ["kubectl", "delete", "-k", absPath]
      match os.CombinedOutput w cmd with
      | (w1, output, some err) =>
        ⟨w1, d, [cmd], FromErr ("failed to delete manifest: " ++ err ++ "\n" ++ output)⟩
      | (w1, _, none) => ⟨w1, d.SetId "", [cmd], []⟩

/-! ### Describing a backend run -/

/-- The world after running the commands `cmds` one after the other from `w`. -/
def worldAfter {W : Type} (os : OS W) : W → List (List String) → W
  | w, [] => w
  | w, c :: cs => worldAfter os (os.CombinedOutput w c).1 cs

/-- Every command of `cmds`, run one after the other from `w`, succeeds. -/
def AllSucceed {W : Type} (os : OS W) : W → List (List String) → Prop
  | _, [] => True
  | w, c :: cs => (os.CombinedOutput w c).2.2 = none ∧ AllSucceed os (os.CombinedOutput w c).1 cs

/-- A small `kubectl`: the world is the list of namespaces that exist.
`create ns` fails on a namespace that exists already, every other command
succeeds; the only missing path is `missing.yaml`. -/
def fakeOS : OS (List String) where
  StatIsNotExist := fun _ p => p == "missing.yaml"
  Abs := fun _ p => .ok ("/work/" ++ p)
  CombinedOutput := fun w argv =>
    match argv with
    | ["kubectl", "create", "ns", n, "--save-config"] =>
      if n ∈ w then (w, "Error from server (AlreadyExists)", some "exit status 1")
      else (n :: w, "namespace/" ++ n ++ " created", none)
    | _ => (w, "ok", none)

/-- The `kubectl create ns` command line of the loop. -/
def nsCmd (n : String) : List String := ["kubectl", "create", "ns", n, "--save-config"]

end kubectl

/-! ## `clusterkind/resource_kind_cluster.go` -/

namespace v1alpha4

/-- Type `v1alpha4.TypeMeta` of the kind API. -/
structure TypeMeta where
  APIVersion : String
  Kind : String
  deriving DecidableEq, Repr

/-- Type `v1alpha4.Mount` of the kind API, with the fields the source fills. -/
structure Mount where
  HostPath : String
  ContainerPath : String
  deriving DecidableEq, Repr

/-- Type `v1alpha4.Node` of the kind API, with the fields the source fills. -/
structure Node where
  Role : String
  ExtraMounts : List Mount
  KubeadmConfigPatches : List String
  deriving DecidableEq, Repr

/-- Type `v1alpha4.Cluster` of the kind API, with the fields the source fills. -/
structure Cluster where
  TypeMeta : TypeMeta
  Name : String
  Nodes : List Node
  ContainerdConfigPatches : List String
  deriving DecidableEq, Repr

end v1alpha4

namespace clusterkind

open diag

/-- One non-nil `node` block as the `map[string]interface{}` the source reads
and writes.  `role` holds a string.  The two other keys are read with the
comma-ok form, so each is `some v` exactly when the key holds a value of the
asserted dynamic type: a string for `kube_adm_config_patches`; for
`extra_mounts` a `map[string]interface{}`, kept as its entries in iteration
order, where the value of an entry is `some h` when it is a map whose
`host_path` holds the string `h` and `none` when it is anything else. -/
structure NodeMap where
  role : String
  extra_mounts : Option (List (String × Option String))
  kube_adm_config_patches : Option String
  deriving DecidableEq, Repr

/-- The `schema.ResourceData` of `resourceKindCluster`: the stored id and the
three schema attributes.  The two lists are the `[]interface{}` values that
`d.GetOk` delivers; `none` is a nil element, which the SDK delivers for an
empty string in `containerd_config_patches` and for a `node` block whose
attributes are all zero. -/
structure ResourceData where
  id : String
  name : String
  containerd_config_patches : List (Option String)
  node : List (Option NodeMap)
  deriving DecidableEq, Repr

/-- A handle on a cluster node (`nodes.Node`), as `ListNodes` returns it. -/
abbrev NodeHandle := String

/-- The kind `cluster.Provider` over a backend world `W`: each method gives the
next world and its result.  `Role` is the `Role()` method of a node handle. -/
structure Provider (W : Type) where
  Create : W → String → v1alpha4.Cluster → W × Option String
  Delete : W → String → String → W × Option String
  ListNodes : W → String → W × Except String (List NodeHandle)
  Role : W → NodeHandle → W × Except String String
  List : W → W × Except String (List String)

/-- A call on the backend. -/
inductive Call where
  | create (name : String) (config : v1alpha4.Cluster)
  | delete (name : String) (explicitKubeconfigPath : String)
  | list
  | listNodes (name : String)
  | role (node : NodeHandle)
  deriving DecidableEq, Repr

/-- The calls that change the backend: create and delete. -/
def Call.isMutation : Call → Bool
  | Call.create _ _ => true
  | Call.delete _ _ => true
  | _ => false

/-- What the source uses of the plugin SDK and of `fmt` beyond plain string
formatting: whether `d.Set` rejects a value (its error), and how `%v` renders
diagnostics. -/
structure Sdk where
  SetErr_containerd_config_patches : List String → Option String
  SetErr_node : List NodeMap → Option String
  Sprint : Diagnostics → String

/-- Outcome of a lifecycle call that returned. -/
structure Result (W : Type) where
  world : W
  d : ResourceData
  calls : List Call
  diags : Diagnostics

/-- Outcome of a lifecycle call that did not return because a type assertion
failed at run time: the world at that point and the backend calls issued so
far. -/
structure Crash (W : Type) where
  world : W
  calls : List Call

/-- Method `d.SetId`. -/
def ResourceData.SetId (d : ResourceData) (v : String) : ResourceData :=
  { d with id := v }

/-- Method `d.Id`. -/
def ResourceData.Id (d : ResourceData) : String := d.id

/-- Method `d.GetOk("containerd_config_patches")`: the list and whether it is non-empty. -/
def ResourceData.GetOk_containerd_config_patches (d : ResourceData) :
    List (Option String) × Bool :=
  (d.containerd_config_patches, !d.containerd_config_patches.isEmpty)

/-- Method `d.GetOk("node")`: the list and whether it is non-empty. -/
def ResourceData.GetOk_node (d : ResourceData) : List (Option NodeMap) × Bool :=
  (d.node, !d.node.isEmpty)

/-- Method `d.Set("containerd_config_patches", v)` on a `[]string`: the error of
the SDK, or the resource data with the attribute written. -/
def ResourceData.Set_containerd_config_patches (d : ResourceData) (sdk : Sdk)
    (v : List String) : Except String ResourceData :=
  match sdk.SetErr_containerd_config_patches v with
  | some err => .error err
  | none => .ok { d with containerd_config_patches := v.map some }

/-- Method `d.Set("node", v)` on a slice of non-nil maps: the error of the SDK, or
the resource data with the attribute written. -/
def ResourceData.Set_node (d : ResourceData) (sdk : Sdk) (v : List NodeMap) :
    Except String ResourceData :=
  match sdk.SetErr_node v with
  | some err => .error err
  | none => .ok { d with node := v.map some }

/-- Assignment `m[k] = v` on a Go map kept as an association list. -/
def mapSet (m : List (String × Option String)) (k : String) (v : Option String) :
    List (String × Option String) :=
  match m with
  | [] => [(k, v)]
  | (k1, v1) :: rest => if k1 = k then (k, v) :: rest else (k1, v1) :: mapSet rest k v

/-- The `for i, patch := range patches` loop (lines 84 to 86): the copied
strings, or `none` when the assertion `patch.(string)` fails on a nil element. -/
def copyPatches : List (Option String) → Option (List String)
  | [] => some []
  | none :: _ => none
  | some patch :: rest =>
    match copyPatches rest with
    | none => none
    | some copied => some (patch :: copied)

/-- The `for mountPath, mountData := range extraMounts` loop (lines 98 to 104):
the mounts appended, or `none` when the assertion
`mountData.(map[string]interface{})` or `mountInfo["host_path"].(string)`
fails. -/
def buildMounts : List (String × Option String) → Option (List v1alpha4.Mount)
  | [] => some []
  | (_, none) :: _ => none
  | (mountPath, some host_path) :: rest =>
    match buildMounts rest with
    | none => none
    | some mounts => some ({ HostPath := host_path, ContainerPath := mountPath } :: mounts)

/-- Lines 93 to 108 of the node loop of `resourceKindClusterCreate`: the
`v1alpha4.Node` built from one non-nil block, or `none` when an assertion of
the mount loop fails. -/
def kindNodeOf (node : NodeMap) : Option v1alpha4.Node :=
  let kindNode : v1alpha4.Node :=
    { Role := node.role, ExtraMounts := [], KubeadmConfigPatches := [] }
  let withMounts : Option v1alpha4.Node :=
    match node.extra_mounts with
    | some extraMounts =>
      match buildMounts extraMounts with
      | none => none
      | some mounts => some { kindNode with ExtraMounts := kindNode.ExtraMounts ++ mounts }
    | none => some kindNode
  match withMounts with
  | none => none
  | some kindNode =>
    match node.kube_adm_config_patches with
    | some patches => some { kindNode with KubeadmConfigPatches := [patches] }
    | none => some kindNode

/-- The `for _, nodeData := range nodes` loop (lines 91 to 111): the nodes
appended, or `none` when the assertion `nodeData.(map[string]interface{})`
fails on a nil element or an assertion of the mount loop fails. -/
def buildNodes : List (Option NodeMap) → Option (List v1alpha4.Node)
  | [] => some []
  | none :: _ => none
  | some node :: rest =>
    match kindNodeOf node with
    | none => none
    | some kindNode =>
      match buildNodes rest with
      | none => none
      | some kindNodes => some (kindNode :: kindNodes)

/-- The `config` that `resourceKindClusterCreate` builds (lines 72 to 112), or
`none` when one of the unchecked type assertions on the way fails.  No
backend call is made on these lines. -/
def buildConfig (d : ResourceData) : Option v1alpha4.Cluster :=
  let name := d.name
  let config : v1alpha4.Cluster :=
    { TypeMeta := { APIVersion := "", Kind := "Cluster" }, Name := name,
      Nodes := [], ContainerdConfigPatches := [] }
  let withPatches : Option v1alpha4.Cluster :=
    match d.GetOk_containerd_config_patches with
    | (patches, true) =>
      match copyPatches patches with
      | none => none
      | some copied => some { config with ContainerdConfigPatches := copied }
    | (_, false) => some config
  match withPatches with
  | none => none
  | some config =>
    match d.GetOk_node with
    | (nodes, true) =>
      match buildNodes nodes with
      | none => none
      | some kindNodes => some { config with Nodes := config.Nodes ++ kindNodes }
    | (_, false) => some config

/-- Body of the `for i, node := range config.Nodes` loop of
`resourceKindClusterCreate` (lines 132 to 147): the `nodeMap` written back for
one node. -/
def nodeMapOf (node : v1alpha4.Node) : NodeMap :=
  { role := node.Role,
    kube_adm_config_patches :=
      match node.KubeadmConfigPatches with
      | patch0 :: _ => some patch0
      | [] => none,
    extra_mounts :=
      if node.ExtraMounts.length > 0 then
        some (node.ExtraMounts.foldl
          (fun m mount => mapSet m mount.ContainerPath (some mount.HostPath)) [])
      else none }

/-- The `for _, clusterName := range exists` loop of `resourceKindClusterRead`. -/
def clusterExistsLoop (name : String) : List String → Bool
  | [] => false
  | clusterName :: rest => if clusterName = name then true else clusterExistsLoop name rest

/-- The `for i, node := range nodes` loop of `resourceKindClusterRead`: the
world afterwards, the calls issued, and either the error of the `Role()` call
that failed or the `nodeConfigs` built. -/
def nodeConfigsLoop {W : Type} (p : Provider W) :
    W → List NodeHandle → W × List Call × Except String (List NodeMap)
  | w, [] => (w, [], .ok [])
  | w, node :: rest =>
    match p.Role w node with
    | (w1, .error err) => (w1, [Call.role node], .error err)
    | (w1, .ok role) =>
      let nodeConfig : NodeMap :=
        if role = "control-plane" then
          { role := "control-plane", extra_mounts := none, kube_adm_config_patches := none }
        else
          { role := "worker", extra_mounts := none, kube_adm_config_patches := none }
      match nodeConfigsLoop p w1 rest with
      | (w2, calls, .error err) => (w2, Call.role node :: calls, .error err)
      | (w2, calls, .ok nodeConfigs) => (w2, Call.role node :: calls, .ok (nodeConfig :: nodeConfigs))

/-- Function `resourceKindClusterRead`.  It holds no type assertion. -/
def resourceKindClusterRead {W : Type} (p : Provider W) (sdk : Sdk) (w : W)
    (d : ResourceData) : Result W :=
  let name := d.Id
  match p.List w with
  | (w1, .error err) => ⟨w1, d, [Call.list], FromErr ("error listing clusters: " ++ err)⟩
  | (w1, .ok exists_) =>
    let clusterExists := clusterExistsLoop name exists_
    if !clusterExists then
      ⟨w1, d.SetId "", [Call.list], []⟩
    else
      match p.ListNodes w1 name with
      | (w2, .error err) =>
        ⟨w2, d, [Call.list, Call.listNodes name],
          FromErr ("error listing nodes for cluster " ++ name ++ ": " ++ err)⟩
      | (w2, .ok nodes) =>
        match nodeConfigsLoop p w2 nodes with
        | (w3, calls, .error err) =>
          ⟨w3, d, [Call.list, Call.listNodes name] ++ calls, FromErr err⟩
        | (w3, calls, .ok nodeConfigs) =>
          match d.Set_node sdk nodeConfigs with
          | .error err =>
            ⟨w3, d, [Call.list, Call.listNodes name] ++ calls,
              FromErr ("error setting node config: " ++ err)⟩
          | .ok d1 => ⟨w3, d1, [Call.list, Call.listNodes name] ++ calls, []⟩

/-- Function `resourceKindClusterCreate`. -/
def resourceKindClusterCreate {W : Type} (p : Provider W) (sdk : Sdk) (w : W)
    (d : ResourceData) : Except (Crash W) (Result W) :=
  let name := d.name
  match buildConfig d with
  | none => .error ⟨w, []⟩
  | some config =>
    match p.Create w name config with
    | (w1, some err) =>
      .ok ⟨w1, d, [Call.create name config], FromErr ("error creating cluster: " ++ err)⟩
    | (w1, none) =>
      let d1 := d.SetId name
      match d1.Set_containerd_config_patches sdk config.ContainerdConfigPatches with
      | .error err =>
        .ok ⟨w1, d1, [Call.create name config],
          FromErr ("error setting containerd_config_patches: " ++ err)⟩
      | .ok d2 =>
        let nodes := config.Nodes.map nodeMapOf
        match d2.Set_node sdk nodes with
        | .error err =>
          .ok ⟨w1, d2, [Call.create name config],
            FromErr ("error setting node config: " ++ err)⟩
        | .ok d3 =>
          let r := resourceKindClusterRead p sdk w1 d3
          .ok { r with calls := Call.create name config :: r.calls }

/-- Function `resourceKindClusterDelete`.  It holds no type assertion. -/
def resourceKindClusterDelete {W : Type} (p : Provider W) (w : W) (d : ResourceData) :
    Result W :=
  let name := d.Id
  match p.Delete w name "" with
  | (w1, some err) =>
    ⟨w1, d, [Call.delete name ""], FromErr ("error deleting cluster " ++ name ++ ": " ++ err)⟩
  | (w1, none) => ⟨w1, d.SetId "", [Call.delete name ""], []⟩

/-- Function `resourceKindClusterUpdate`. -/
def resourceKindClusterUpdate {W : Type} (p : Provider W) (sdk : Sdk) (w : W)
    (d : ResourceData) : Except (Crash W) (Result W) :=
  let r := resourceKindClusterDelete p w d
  if r.diags ≠ [] then
    .ok ⟨r.world, r.d, r.calls,
      FromErr ("error deleting existing cluster during update: " ++ sdk.Sprint r.diags)⟩
  else
    match resourceKindClusterCreate p sdk r.world r.d with
    | .error c => .error ⟨c.world, r.calls ++ c.calls⟩
    | .ok r2 => .ok { r2 with calls := r.calls ++ r2.calls }

/-! ### Describing a backend run -/

/-- The role strings the backend reports for `nodes`, asked one after the
other from `w`; `none` when one of the `Role()` calls fails. -/
def rolesOf {W : Type} (p : Provider W) : W → List NodeHandle → Option (List String)
  | _, [] => some []
  | w, node :: rest =>
    match p.Role w node with
    | (_, .error _) => none
    | (w1, .ok role) =>
      match rolesOf p w1 rest with
      | none => none
      | some roles => some (role :: roles)

/-- An SDK whose `d.Set` accepts every value. -/
def okSdk : Sdk where
  SetErr_containerd_config_patches := fun _ => none
  SetErr_node := fun _ => none
  Sprint := fun ds => String.intercalate "; " (ds.map (fun x => x.Summary))

/-- A small kind backend.  The world is the list of clusters that exist;
`createErr` and `deleteErr` make the corresponding call fail.  Every cluster
has the three nodes `cp`, `lb` and `w1`. -/
def fakeProvider (createErr deleteErr : Option String) : Provider (List String) where
  Create := fun w name _ =>
    match createErr with
    | some e => (w, some e)
    | none => (name :: w, none)
  Delete := fun w name _ =>
    match deleteErr with
    | some e => (w, some e)
    | none => (w.filter (fun c => c != name), none)
  ListNodes := fun w _ => (w, .ok ["cp", "lb", "w1"])
  Role := fun w node =>
    if node = "cp" then (w, .ok "control-plane")
    else if node = "lb" then (w, .ok "external-load-balancer")
    else (w, .ok "worker")
  List := fun w => (w, .ok w)

/-- A backend whose create succeeds but whose list never shows a cluster. -/
def forgetfulProvider : Provider Unit where
  Create := fun w _ _ => (w, none)
  Delete := fun w _ _ => (w, none)
  ListNodes := fun w _ => (w, .ok [])
  Role := fun w _ => (w, .ok "worker")
  List := fun w => (w, .ok [])

/-- The configuration of the scenario: cluster `dev` with one control-plane
node, as the SDK delivers it (the unset string attribute of the block is the
empty string, the unset set of mounts is not a map). -/
def devConfig : ResourceData :=
  { id := "", name := "dev", containerd_config_patches := [],
    node := [some { role := "control-plane", extra_mounts := none,
                    kube_adm_config_patches := some "" }] }

/-- The cluster config the source builds from `devConfig`. -/
def devCluster : v1alpha4.Cluster :=
  { TypeMeta := { APIVersion := "", Kind := "Cluster" }, Name := "dev",
    Nodes := [{ Role := "control-plane", ExtraMounts := [], KubeadmConfigPatches := [""] }],
    ContainerdConfigPatches := [] }

end clusterkind

/-! ## Theorems: the manifest resource -/

namespace kubectl

open diag

/-! ### Lemmas on the namespace loop -/

theorem allSucceed_append {W : Type} (os : OS W) (w : W) (a b : List (List String)) :
    AllSucceed os w (a ++ b) ↔ AllSucceed os w a ∧ AllSucceed os (worldAfter os w a) b := by
  induction a generalizing w with
  | nil => simp [AllSucceed, worldAfter]
  | cons c cs ih => simp [AllSucceed, worldAfter, ih, and_assoc]

theorem worldAfter_snoc {W : Type} (os : OS W) (w : W) (l : List (List String))
    (c : List String) :
    worldAfter os w (l ++ [c]) = (os.CombinedOutput (worldAfter os w l) c).1 := by
  induction l generalizing w with
  | nil => simp [worldAfter]
  | cons a t ih => simpa [worldAfter] using ih _

theorem createNamespaces_after_ok {W : Type} (os : OS W) (w : W) (pre : List String)
    (rest : List (Option String)) (h : AllSucceed os w (pre.map nsCmd)) :
    createNamespaces os w (pre.map some ++ rest) =
      ((createNamespaces os (worldAfter os w (pre.map nsCmd)) rest).1,
        pre.map nsCmd ++ (createNamespaces os (worldAfter os w (pre.map nsCmd)) rest).2.1,
        (createNamespaces os (worldAfter os w (pre.map nsCmd)) rest).2.2) := by
  induction pre generalizing w with
  | nil => simp [worldAfter]
  | cons p ps ih =>
    simp only [List.map_cons, AllSucceed] at h
    obtain ⟨h1, h2⟩ := h
    have e : nsCmd p = ["kubectl", "create", "ns", p, "--save-config"] := rfl
    rw [e] at h1 h2
    rcases hc : os.CombinedOutput w ["kubectl", "create", "ns", p, "--save-config"] with
      ⟨w2, o2, e2⟩
    rw [hc] at h1 h2
    simp only at h1 h2
    subst h1
    have hh := ih w2 h2
    simp only [List.map_cons, List.cons_append, createNamespaces, hc, worldAfter, e,
      List.append_eq, hh]

theorem createNamespaces_all_ok {W : Type} (os : OS W) (w : W) (ns : List String)
    (h : AllSucceed os w (ns.map nsCmd)) :
    createNamespaces os w (ns.map some) =
      (worldAfter os w (ns.map nsCmd), ns.map nsCmd, LoopExit.completed) := by
  have hh := createNamespaces_after_ok os w ns [] h
  simpa [createNamespaces] using hh

theorem createNamespaces_fail_at {W : Type} (os : OS W) (w : W) (pre : List String)
    (post : List (Option String)) (n : String) (w1 : W) (out err : String)
    (hpre : AllSucceed os w (pre.map nsCmd))
    (hfail : os.CombinedOutput (worldAfter os w (pre.map nsCmd)) (nsCmd n) = (w1, out, some err)) :
    createNamespaces os w (pre.map some ++ some n :: post) =
      (w1, (pre ++ [n]).map nsCmd,
        LoopExit.returned (FromErr ("failed to apply manifest: " ++ err ++ "\n" ++ out))) := by
  have e : nsCmd n = ["kubectl", "create", "ns", n, "--save-config"] := rfl
  rw [e] at hfail
  rw [createNamespaces_after_ok os w pre _ hpre]
  simp [createNamespaces, hfail, e]

theorem createNamespaces_nil_at {W : Type} (os : OS W) (w : W) (pre : List String)
    (post : List (Option String)) (hpre : AllSucceed os w (pre.map nsCmd)) :
    createNamespaces os w (pre.map some ++ none :: post) =
      (worldAfter os w (pre.map nsCmd), pre.map nsCmd, LoopExit.crashed) := by
  rw [createNamespaces_after_ok os w pre _ hpre]
  simp [createNamespaces]

theorem getOk_createns_loop {W : Type} (os : OS W) (w : W) (l : List (Option String)) :
    (if (!l.isEmpty) = true then createNamespaces os w l else (w, [], LoopExit.completed)) =
      createNamespaces os w l := by
  cases l with
  | nil => simp [createNamespaces]
  | cons a t => simp

/-- On a namespace list without nil element: when the manifest path exists,
`filepath.Abs` resolves it to `absPath` and every backend command of the run
succeeds, `resourceKubectlManifestCreate` returns; it has run, on the backend
and in this order, `kubectl create ns n --save-config` for each namespace and
then one `kubectl apply` on `absPath` (`-f` when `kustomize` is false, `-k`
when it is true); it returns no diagnostics and stores `absPath` as the id. -/
theorem create_on_plain_namespaces {W : Type} (os : OS W) (w : W)
    (d : ResourceData) (absPath : String) (names : List String)
    (hstat : os.StatIsNotExist w d.manifest_path = false)
    (habs : os.Abs w d.manifest_path = .ok absPath)
    (hns : d.createns = names.map some)
    (hok : AllSucceed os w
      (names.map (fun n => ["kubectl", "create", "ns", n, "--save-config"]) ++
        [["kubectl", "apply", if d.kustomize then "-k" else "-f", absPath]])) :
    resourceKubectlManifestCreate os w d =
      .ok ⟨worldAfter os w
          (names.map (fun n => ["kubectl", "create", "ns", n, "--save-config"]) ++
            [["kubectl", "apply", if d.kustomize then "-k" else "-f", absPath]]),
        { d with id := absPath },
        names.map (fun n => ["kubectl", "create", "ns", n, "--save-config"]) ++
          [["kubectl", "apply", if d.kustomize then "-k" else "-f", absPath]],
        []⟩ := by
  have hfun : (fun n => ["kubectl", "create", "ns", n, "--save-config"]) = nsCmd := rfl
  rw [hfun] at hok ⊢
  rw [allSucceed_append] at hok
  obtain ⟨hnsok, hap⟩ := hok
  simp only [AllSucceed, and_true] at hap
  have hloop := createNamespaces_all_ok os w names hnsok
  have hcmd : (if (!d.kustomize) = true then ["kubectl", "apply", "-f", absPath]
      else ["kubectl", "apply", "-k", absPath]) =
      ["kubectl", "apply", if d.kustomize then "-k" else "-f", absPath] := by
    cases d.kustomize <;> simp
  have hloop2 : (if d.GetOk_createns.2 = true then createNamespaces os w d.GetOk_createns.1
      else (w, [], LoopExit.completed)) =
      (worldAfter os w (names.map nsCmd), names.map nsCmd, LoopExit.completed) := by
    rw [← hloop, ← hns]
    exact getOk_createns_loop os w d.createns
  rw [worldAfter_snoc]
  rcases hc : os.CombinedOutput (worldAfter os w (names.map nsCmd))
    ["kubectl", "apply", if d.kustomize then "-k" else "-f", absPath] with ⟨w2, out, err⟩
  rw [hc] at hap
  simp only at hap
  subst hap
  unfold resourceKubectlManifestCreate
  simp only [hstat, habs, hloop2, hcmd, hc, Bool.false_eq_true, if_false, ResourceData.SetId]

/-- On the small backend: two namespaces and a plain manifest give the three
commands in order and leave both namespaces created. -/
theorem create_on_plain_namespaces_example :
    resourceKubectlManifestCreate fakeOS []
        { id := "", manifest_path := "app.yaml", kustomize := false,
          createns := [some "app-ns", some "db-ns"] } =
      .ok ⟨["db-ns", "app-ns"],
        { id := "/work/app.yaml", manifest_path := "app.yaml", kustomize := false,
          createns := [some "app-ns", some "db-ns"] },
        [["kubectl", "create", "ns", "app-ns", "--save-config"],
          ["kubectl", "create", "ns", "db-ns", "--save-config"],
          ["kubectl", "apply", "-f", "/work/app.yaml"]], []⟩ :=
  create_on_plain_namespaces fakeOS []
    { id := "", manifest_path := "app.yaml", kustomize := false,
      createns := [some "app-ns", some "db-ns"] } "/work/app.yaml" ["app-ns", "db-ns"]
    rfl rfl rfl ⟨rfl, rfl, rfl, trivial⟩

/-- C1, the code at the failing input and at every input like it. When the
manifest path exists and resolves, the namespaces of `pre` are created
successfully and the next element of the list is nil (what the SDK delivers
for a block whose `namespace` is the empty string), the call does not return:
the assertion of line 61 fails after the `kubectl create ns` of `pre` have
run; no command is issued for the nil element or for any later one, and no
`kubectl apply` is issued, so fewer than `k + 1` commands are run. -/
theorem create_crashes_on_nil_namespace {W : Type} (os : OS W) (w : W)
    (d : ResourceData) (absPath : String) (pre : List String) (post : List (Option String))
    (hstat : os.StatIsNotExist w d.manifest_path = false)
    (habs : os.Abs w d.manifest_path = .ok absPath)
    (hsplit : d.createns = pre.map some ++ none :: post)
    (hpre : AllSucceed os w
      (pre.map (fun x => ["kubectl", "create", "ns", x, "--save-config"]))) :
    resourceKubectlManifestCreate os w d =
        .error ⟨worldAfter os w
            (pre.map (fun x => ["kubectl", "create", "ns", x, "--save-config"])),
          pre.map (fun x => ["kubectl", "create", "ns", x, "--save-config"])⟩ ∧
      (pre.map (fun x => ["kubectl", "create", "ns", x, "--save-config"])).length <
        d.createns.length + 1 := by
  have hfun : (fun x => ["kubectl", "create", "ns", x, "--save-config"]) = nsCmd := rfl
  rw [hfun] at hpre ⊢
  have hloop := createNamespaces_nil_at os w pre post hpre
  have hloop2 : (if d.GetOk_createns.2 = true then createNamespaces os w d.GetOk_createns.1
      else (w, [], LoopExit.completed)) =
      (worldAfter os w (pre.map nsCmd), pre.map nsCmd, LoopExit.crashed) := by
    rw [← hloop, ← hsplit]
    exact getOk_createns_loop os w d.createns
  constructor
  · unfold resourceKubectlManifestCreate
    simp only [hstat, habs, hloop2, Bool.false_eq_true, if_false]
  · rw [hsplit]
    simp
    omega

/-- C1, the failing input on the small backend: one `createns` block whose
`namespace` is the empty string, a plain manifest that exists, a backend on
which every command succeeds.  The call crashes and no command is run, where
the claim has two commands. -/
theorem create_crashes_on_nil_namespace_witness :
    resourceKubectlManifestCreate fakeOS []
        { id := "", manifest_path := "app.yaml", kustomize := false, createns := [none] } =
      .error ⟨[], []⟩ :=
  (create_crashes_on_nil_namespace fakeOS []
    { id := "", manifest_path := "app.yaml", kustomize := false, createns := [none] }
    "/work/app.yaml" [] [] rfl rfl rfl trivial).1

/-- C2. When the manifest path exists and resolves to `absPath`, the namespace
list begins with the non-nil elements `pre` and `n`, the backend creates the
namespaces of `pre` successfully and then fails on `n` with error `err` and
captured output `out`, `resourceKubectlManifestCreate` returns one error
diagnostic whose message ends with the captured output `out`; the commands it
ran on the backend are the `kubectl create ns` of `pre` and of `n` and nothing
after (no element of `post`, no `kubectl apply`), and the world is the one
the failed command left; the stored id is not set: the resource data are
unchanged, so the id keeps the value it had before the call, the empty string
for a resource being created. -/
theorem create_stops_at_first_failed_namespace {W : Type} (os : OS W) (w w1 : W)
    (d : ResourceData) (absPath : String) (pre : List String) (post : List (Option String))
    (n out err : String)
    (hstat : os.StatIsNotExist w d.manifest_path = false)
    (habs : os.Abs w d.manifest_path = .ok absPath)
    (hsplit : d.createns = pre.map some ++ some n :: post)
    (hpre : AllSucceed os w
      (pre.map (fun x => ["kubectl", "create", "ns", x, "--save-config"])))
    (hfail : os.CombinedOutput
        (worldAfter os w (pre.map (fun x => ["kubectl", "create", "ns", x, "--save-config"])))
        ["kubectl", "create", "ns", n, "--save-config"] = (w1, out, some err)) :
    ∃ r, resourceKubectlManifestCreate os w d = .ok r ∧
      r.diags = FromErr ("failed to apply manifest: " ++ err ++ "\n" ++ out) ∧
      HasError r.diags = true ∧
      r.cmds = (pre ++ [n]).map (fun x => ["kubectl", "create", "ns", x, "--save-config"]) ∧
      r.cmds.length = pre.length + 1 ∧
      ["kubectl", "apply", "-f", absPath] ∉ r.cmds ∧
      ["kubectl", "apply", "-k", absPath] ∉ r.cmds ∧
      r.d.id = d.id ∧
      (d.id = "" → r.d.id = "") ∧
      r.d = d ∧
      r.world = w1 := by
  have hfun : (fun x => ["kubectl", "create", "ns", x, "--save-config"]) = nsCmd := rfl
  have hn : ["kubectl", "create", "ns", n, "--save-config"] = nsCmd n := rfl
  rw [hfun] at hpre hfail ⊢
  rw [hn] at hfail
  have hloop := createNamespaces_fail_at os w pre post n w1 out err hpre hfail
  have hloop2 : (if d.GetOk_createns.2 = true then createNamespaces os w d.GetOk_createns.1
      else (w, [], LoopExit.completed)) =
      (w1, (pre ++ [n]).map nsCmd,
        LoopExit.returned (FromErr ("failed to apply manifest: " ++ err ++ "\n" ++ out))) := by
    rw [← hloop, ← hsplit]
    exact getOk_createns_loop os w d.createns
  have key : resourceKubectlManifestCreate os w d =
      .ok ⟨w1, d, (pre ++ [n]).map nsCmd,
        FromErr ("failed to apply manifest: " ++ err ++ "\n" ++ out)⟩ := by
    unfold resourceKubectlManifestCreate
    simp only [hstat, habs, hloop2, Bool.false_eq_true, if_false]
  refine ⟨_, key, rfl, by simp [HasError, FromErr], rfl, by simp, ?_, ?_, rfl, fun h => h,
    rfl, rfl⟩
  · simp [nsCmd]
  · simp [nsCmd]

/-- C2, on the small backend: `db-ns` exists already, so the second of three
namespaces fails; two commands are issued and the id stays empty. -/
theorem create_stops_at_first_failed_namespace_witness :
    ∃ r, resourceKubectlManifestCreate fakeOS ["db-ns"]
        { id := "", manifest_path := "app.yaml", kustomize := false,
          createns := [some "app-ns", some "db-ns", some "web-ns"] } = .ok r ∧
      r.cmds = [["kubectl", "create", "ns", "app-ns", "--save-config"],
        ["kubectl", "create", "ns", "db-ns", "--save-config"]] ∧
      r.d.id = "" ∧
      r.world = ["app-ns", "db-ns"] :=
  match create_stops_at_first_failed_namespace fakeOS ["db-ns"] ["app-ns", "db-ns"]
    { id := "", manifest_path := "app.yaml", kustomize := false,
      createns := [some "app-ns", some "db-ns", some "web-ns"] } "/work/app.yaml"
    ["app-ns"] [some "web-ns"] "db-ns" "Error from server (AlreadyExists)" "exit status 1"
    rfl rfl rfl ⟨rfl, trivial⟩ rfl with
  | ⟨r, h⟩ => ⟨r, h.1, h.2.2.2.1, h.2.2.2.2.2.2.2.1, h.2.2.2.2.2.2.2.2.2.2⟩

/-- C7. When the manifest path does not exist, `resourceKubectlManifestDelete`
returns no diagnostics, sets the stored id to the empty string and issues no
backend command, whatever the `kustomize` flag. -/
theorem delete_of_missing_manifest_succeeds {W : Type} (os : OS W) (w : W)
    (d : ResourceData) (hstat : os.StatIsNotExist w d.manifest_path = true) :
    (resourceKubectlManifestDelete os w d).diags = [] ∧
      HasError (resourceKubectlManifestDelete os w d).diags = false ∧
      (resourceKubectlManifestDelete os w d).d.id = "" ∧
      (resourceKubectlManifestDelete os w d).cmds = [] := by
  simp [resourceKubectlManifestDelete, hstat, ResourceData.SetId, HasError]

/-- C7, on the small backend, with the flag set and with the flag cleared. -/
theorem delete_of_missing_manifest_succeeds_witness :
    (resourceKubectlManifestDelete fakeOS ["app-ns"]
        { id := "/work/missing.yaml", manifest_path := "missing.yaml", kustomize := true,
          createns := [] }).d.id = "" ∧
    (resourceKubectlManifestDelete fakeOS ["app-ns"]
        { id := "/work/missing.yaml", manifest_path := "missing.yaml", kustomize := false,
          createns := [] }).cmds = [] :=
  ⟨(delete_of_missing_manifest_succeeds fakeOS ["app-ns"]
      { id := "/work/missing.yaml", manifest_path := "missing.yaml", kustomize := true,
        createns := [] } (by decide)).2.2.1,
    (delete_of_missing_manifest_succeeds fakeOS ["app-ns"]
      { id := "/work/missing.yaml", manifest_path := "missing.yaml", kustomize := false,
        createns := [] } (by decide)).2.2.2⟩

end kubectl

/-! ## Theorems: the cluster resource -/

namespace clusterkind

open diag

/-! ### Lemmas on the read path -/

theorem clusterExistsLoop_iff (name : String) (l : List String) :
    clusterExistsLoop name l = true ↔ name ∈ l := by
  induction l with
  | nil => simp [clusterExistsLoop]
  | cons a t ih =>
    by_cases h : a = name
    · simp [clusterExistsLoop, h]
    · have h2 : ¬ name = a := fun e => h e.symm
      simp [clusterExistsLoop, h, h2, ih]

theorem nodeConfigsLoop_calls {W : Type} (p : Provider W) (w : W) (nodes : List NodeHandle) :
    (nodeConfigsLoop p w nodes).2.1.filter Call.isMutation = [] := by
  induction nodes generalizing w with
  | nil => simp [nodeConfigsLoop]
  | cons n rest ih =>
    simp only [nodeConfigsLoop]
    rcases hr : p.Role w n with ⟨w1, r⟩
    cases r with
    | error e => simp [Call.isMutation]
    | ok role =>
      have h := ih w1
      rcases hl : nodeConfigsLoop p w1 rest with ⟨w2, calls, res⟩
      rw [hl] at h
      cases res <;> simpa [hl, Call.isMutation] using h

theorem read_calls_no_mutation {W : Type} (p : Provider W) (sdk : Sdk) (w : W)
    (d : ResourceData) :
    (resourceKindClusterRead p sdk w d).calls.filter Call.isMutation = [] := by
  unfold resourceKindClusterRead
  rcases hl : p.List w with ⟨w1, r⟩
  cases r with
  | error e => simp [Call.isMutation]
  | ok names =>
    simp only
    split
    · simp [Call.isMutation]
    · rcases hn : p.ListNodes w1 d.Id with ⟨w2, rn⟩
      cases rn with
      | error e => simp [Call.isMutation]
      | ok nodes =>
        have h := nodeConfigsLoop_calls p w2 nodes
        rcases hc : nodeConfigsLoop p w2 nodes with ⟨w3, calls, res⟩
        rw [hc] at h
        cases res with
        | error e => simpa [hc, Call.isMutation] using h
        | ok cfgs =>
          simp only [hc]
          cases hs : d.Set_node sdk cfgs <;> simpa [Call.isMutation] using h

theorem read_absent {W : Type} (p : Provider W) (sdk : Sdk) (w w1 : W)
    (d : ResourceData) (names : List String)
    (hlist : p.List w = (w1, .ok names)) (hin : d.id ∉ names) :
    resourceKindClusterRead p sdk w d = ⟨w1, d.SetId "", [Call.list], []⟩ := by
  have hex : clusterExistsLoop d.id names = false := by
    rw [← Bool.not_eq_true, clusterExistsLoop_iff]
    exact hin
  simp [resourceKindClusterRead, ResourceData.Id, hlist, hex]

theorem read_present_id {W : Type} (p : Provider W) (sdk : Sdk) (w w1 : W)
    (d : ResourceData) (names : List String)
    (hlist : p.List w = (w1, .ok names)) (hin : d.id ∈ names) :
    (resourceKindClusterRead p sdk w d).d.id = d.id := by
  have hex : clusterExistsLoop d.id names = true := (clusterExistsLoop_iff d.id names).2 hin
  rcases hn : p.ListNodes w1 d.id with ⟨w2, rn⟩
  cases rn with
  | error e => simp [resourceKindClusterRead, ResourceData.Id, hlist, hex, hn]
  | ok nodes =>
    rcases hc : nodeConfigsLoop p w2 nodes with ⟨w3, calls, res⟩
    cases res with
    | error e => simp [resourceKindClusterRead, ResourceData.Id, hlist, hex, hn, hc]
    | ok cfgs =>
      cases hs : sdk.SetErr_node cfgs with
      | some e =>
        simp [resourceKindClusterRead, ResourceData.Id, hlist, hex, hn, hc,
          ResourceData.Set_node, hs]
      | none =>
        simp [resourceKindClusterRead, ResourceData.Id, hlist, hex, hn, hc,
          ResourceData.Set_node, hs]

theorem read_list_error {W : Type} (p : Provider W) (sdk : Sdk) (w w1 : W)
    (d : ResourceData) (e : String) (hlist : p.List w = (w1, .error e)) :
    resourceKindClusterRead p sdk w d =
      ⟨w1, d, [Call.list], FromErr ("error listing clusters: " ++ e)⟩ := by
  simp [resourceKindClusterRead, hlist]

theorem nodeConfigsLoop_of_roles {W : Type} (p : Provider W) (w : W)
    (nodes : List NodeHandle) (roles : List String) (h : rolesOf p w nodes = some roles) :
    roles.length = nodes.length ∧
    ∃ w3, nodeConfigsLoop p w nodes =
      (w3, nodes.map Call.role,
        .ok (roles.map (fun r =>
          { role := if r = "control-plane" then "control-plane" else "worker",
            extra_mounts := none, kube_adm_config_patches := none }))) := by
  induction nodes generalizing w roles with
  | nil =>
    simp only [rolesOf, Option.some.injEq] at h
    subst h
    exact ⟨rfl, w, rfl⟩
  | cons n rest ih =>
    rcases hr : p.Role w n with ⟨w1, r⟩
    cases r with
    | error e => simp [rolesOf, hr] at h
    | ok role =>
      cases hrest : rolesOf p w1 rest with
      | none => simp [rolesOf, hr, hrest] at h
      | some rs =>
        simp only [rolesOf, hr, hrest, Option.some.injEq] at h
        subst h
        obtain ⟨hlen, w3, hloop⟩ := ih w1 rs hrest
        refine ⟨by simp [hlen], w3, ?_⟩
        simp only [nodeConfigsLoop, hr, hloop, List.map_cons]
        by_cases hcp : role = "control-plane" <;> simp [hcp]

/-! ### Lemmas on building the config -/

theorem copyPatches_nil_elem (l : List (Option String)) (h : none ∈ l) :
    copyPatches l = none := by
  induction l with
  | nil => simp at h
  | cons a t ih =>
    cases a with
    | none => rfl
    | some s =>
      have ht : none ∈ t := by simpa using h
      simp [copyPatches, ih ht]

theorem buildNodes_nil_elem (l : List (Option NodeMap)) (h : none ∈ l) :
    buildNodes l = none := by
  induction l with
  | nil => simp at h
  | cons a t ih =>
    cases a with
    | none => rfl
    | some s =>
      have ht : none ∈ t := by simpa using h
      simp only [buildNodes, ih ht]
      cases kindNodeOf s <;> rfl

theorem buildConfig_nil_elem (d : ResourceData)
    (h : none ∈ d.containerd_config_patches ∨ none ∈ d.node) : buildConfig d = none := by
  rcases h with h | h
  · have hne : d.containerd_config_patches.isEmpty = false := by
      cases hl : d.containerd_config_patches with
      | nil => rw [hl] at h; simp at h
      | cons a t => rfl
    simp [buildConfig, ResourceData.GetOk_containerd_config_patches, hne,
      copyPatches_nil_elem _ h]
  · have hne : d.node.isEmpty = false := by
      cases hl : d.node with
      | nil => rw [hl] at h; simp at h
      | cons a t => rfl
    unfold buildConfig
    simp only [ResourceData.GetOk_node, hne, Bool.not_false, buildNodes_nil_elem _ h]
    split <;> rfl

theorem copyPatches_map_some (l : List String) : copyPatches (l.map some) = some l := by
  induction l with
  | nil => rfl
  | cons a t ih => simp [copyPatches, ih]

theorem kindNodeOf_plain (b : NodeMap) (h : b.extra_mounts = none) :
    kindNodeOf b =
      some { Role := b.role, ExtraMounts := [],
             KubeadmConfigPatches :=
               match b.kube_adm_config_patches with
               | some patches => [patches]
               | none => [] } := by
  unfold kindNodeOf
  simp only [h]
  cases b.kube_adm_config_patches <;> rfl

theorem buildNodes_plain (l : List NodeMap) (h : ∀ b ∈ l, b.extra_mounts = none) :
    buildNodes (l.map some) =
      some (l.map (fun b =>
        { Role := b.role, ExtraMounts := [],
          KubeadmConfigPatches :=
            match b.kube_adm_config_patches with
            | some patches => [patches]
            | none => [] })) := by
  induction l with
  | nil => rfl
  | cons a t ih =>
    have ha : a.extra_mounts = none := h a (by simp)
    have ht : ∀ b ∈ t, b.extra_mounts = none := fun b hb => h b (by simp [hb])
    simp only [List.map_cons, buildNodes, kindNodeOf_plain a ha, ih ht]

/-- The cluster config built from lists without nil element whose blocks hold
no mount map (the shape the SDK delivers): kind `Cluster`, empty API version,
the configured name, the patches as given, and one node per block, in order,
with the role of the block, no mount, and the one kubeadm patch of the
block. -/
theorem buildConfig_plain (d : ResourceData) (patches : List String) (blocks : List NodeMap)
    (hp : d.containerd_config_patches = patches.map some)
    (hn : d.node = blocks.map some)
    (hm : ∀ b ∈ blocks, b.extra_mounts = none) :
    buildConfig d =
      some { TypeMeta := { APIVersion := "", Kind := "Cluster" }, Name := d.name,
             Nodes := blocks.map (fun b =>
               { Role := b.role, ExtraMounts := [],
                 KubeadmConfigPatches :=
                   match b.kube_adm_config_patches with
                   | some patches => [patches]
                   | none => [] }),
             ContainerdConfigPatches := patches } := by
  have hcp := copyPatches_map_some patches
  have hbn := buildNodes_plain blocks hm
  unfold buildConfig
  simp only [ResourceData.GetOk_containerd_config_patches, ResourceData.GetOk_node, hp, hn]
  cases patches with
  | nil =>
    cases blocks with
    | nil => simp
    | cons b bs =>
      simp only [List.map_cons] at hbn
      simp [hbn]
  | cons q qs =>
    simp only [List.map_cons] at hcp
    cases blocks with
    | nil => simp [hcp]
    | cons b bs =>
      simp only [List.map_cons] at hbn
      simp [hcp, hbn]

/-! ### Lemmas on delete, create and update -/

theorem delete_ok {W : Type} (p : Provider W) (w w1 : W) (d : ResourceData)
    (h : p.Delete w d.id "" = (w1, none)) :
    resourceKindClusterDelete p w d = ⟨w1, d.SetId "", [Call.delete d.id ""], []⟩ := by
  simp only [resourceKindClusterDelete, ResourceData.Id, h]

theorem delete_fail {W : Type} (p : Provider W) (w w1 : W) (d : ResourceData) (e : String)
    (h : p.Delete w d.id "" = (w1, some e)) :
    resourceKindClusterDelete p w d =
      ⟨w1, d, [Call.delete d.id ""], FromErr ("error deleting cluster " ++ d.id ++ ": " ++ e)⟩ := by
  simp only [resourceKindClusterDelete, ResourceData.Id, h]

theorem create_crash {W : Type} (p : Provider W) (sdk : Sdk) (w : W) (d : ResourceData)
    (h : buildConfig d = none) :
    resourceKindClusterCreate p sdk w d = .error ⟨w, []⟩ := by
  simp only [resourceKindClusterCreate, h]

theorem create_fail {W : Type} (p : Provider W) (sdk : Sdk) (w w1 : W) (d : ResourceData)
    (cfg : v1alpha4.Cluster) (e : String) (hcfg : buildConfig d = some cfg)
    (h : p.Create w d.name cfg = (w1, some e)) :
    resourceKindClusterCreate p sdk w d =
      .ok ⟨w1, d, [Call.create d.name cfg], FromErr ("error creating cluster: " ++ e)⟩ := by
  simp only [resourceKindClusterCreate, hcfg, h]

theorem create_of_ok {W : Type} (p : Provider W) (sdk : Sdk) (w w1 : W) (d : ResourceData)
    (cfg : v1alpha4.Cluster) (hcfg : buildConfig d = some cfg)
    (hcr : p.Create w d.name cfg = (w1, none))
    (h1 : sdk.SetErr_containerd_config_patches cfg.ContainerdConfigPatches = none)
    (h2 : sdk.SetErr_node (cfg.Nodes.map nodeMapOf) = none) :
    resourceKindClusterCreate p sdk w d =
      .ok { resourceKindClusterRead p sdk w1
          { id := d.name, name := d.name,
            containerd_config_patches := cfg.ContainerdConfigPatches.map some,
            node := (cfg.Nodes.map nodeMapOf).map some } with
        calls := Call.create d.name cfg ::
          (resourceKindClusterRead p sdk w1
            { id := d.name, name := d.name,
              containerd_config_patches := cfg.ContainerdConfigPatches.map some,
              node := (cfg.Nodes.map nodeMapOf).map some }).calls } := by
  simp [resourceKindClusterCreate, hcfg, hcr, ResourceData.Set_containerd_config_patches, h1,
    ResourceData.Set_node, h2, ResourceData.SetId]

theorem create_returns {W : Type} (p : Provider W) (sdk : Sdk) (w : W) (d : ResourceData)
    (cfg : v1alpha4.Cluster) (hcfg : buildConfig d = some cfg) :
    ∃ r rest, resourceKindClusterCreate p sdk w d = .ok r ∧
      r.calls = Call.create d.name cfg :: rest ∧ rest.filter Call.isMutation = [] := by
  rcases hc : p.Create w d.name cfg with ⟨w1, r⟩
  cases r with
  | some e => exact ⟨_, [], create_fail p sdk w w1 d cfg e hcfg hc, rfl, by simp⟩
  | none =>
    cases h1 : (d.SetId d.name).Set_containerd_config_patches sdk
        cfg.ContainerdConfigPatches with
    | error e =>
      refine ⟨⟨w1, d.SetId d.name, [Call.create d.name cfg],
        FromErr ("error setting containerd_config_patches: " ++ e)⟩, [], ?_, rfl, by simp⟩
      simp only [resourceKindClusterCreate, hcfg, hc, h1]
    | ok d2 =>
      cases h2 : d2.Set_node sdk (cfg.Nodes.map nodeMapOf) with
      | error e =>
        refine ⟨⟨w1, d2, [Call.create d.name cfg],
          FromErr ("error setting node config: " ++ e)⟩, [], ?_, rfl, by simp⟩
        simp only [resourceKindClusterCreate, hcfg, hc, h1, h2]
      | ok d3 =>
        refine ⟨{ resourceKindClusterRead p sdk w1 d3 with
            calls := Call.create d.name cfg :: (resourceKindClusterRead p sdk w1 d3).calls },
          (resourceKindClusterRead p sdk w1 d3).calls, ?_, rfl,
          read_calls_no_mutation p sdk w1 d3⟩
        simp only [resourceKindClusterCreate, hcfg, hc, h1, h2]

theorem update_of_delete_ok {W : Type} (p : Provider W) (sdk : Sdk) (w w1 : W)
    (d : ResourceData) (h : p.Delete w d.id "" = (w1, none)) :
    resourceKindClusterUpdate p sdk w d =
      match resourceKindClusterCreate p sdk w1 (d.SetId "") with
      | .error c => .error ⟨c.world, Call.delete d.id "" :: c.calls⟩
      | .ok r2 => .ok { r2 with calls := Call.delete d.id "" :: r2.calls } := by
  simp [resourceKindClusterUpdate, delete_ok p w w1 d h]

theorem update_of_delete_fail {W : Type} (p : Provider W) (sdk : Sdk) (w w1 : W)
    (d : ResourceData) (e : String) (h : p.Delete w d.id "" = (w1, some e)) :
    resourceKindClusterUpdate p sdk w d =
      .ok ⟨w1, d, [Call.delete d.id ""],
        FromErr ("error deleting existing cluster during update: " ++
          sdk.Sprint (FromErr ("error deleting cluster " ++ d.id ++ ": " ++ e)))⟩ := by
  simp [resourceKindClusterUpdate, delete_fail p w w1 d e h, FromErr]

theorem buildConfig_name (d : ResourceData) (cfg : v1alpha4.Cluster)
    (h : buildConfig d = some cfg) : cfg.Name = d.name := by
  unfold buildConfig at h
  simp only [ResourceData.GetOk_containerd_config_patches, ResourceData.GetOk_node] at h
  cases hp : (!d.containerd_config_patches.isEmpty) <;>
    cases hn : (!d.node.isEmpty) <;>
    rw [hp, hn] at h <;> simp only at h
  · injection h with h; rw [← h]
  · cases hb : buildNodes d.node with
    | none => rw [hb] at h; simp at h
    | some ks => rw [hb] at h; injection h with h; rw [← h]
  · cases hc : copyPatches d.containerd_config_patches with
    | none => rw [hc] at h; simp at h
    | some cs => rw [hc] at h; injection h with h; rw [← h]
  · cases hc : copyPatches d.containerd_config_patches with
    | none => rw [hc] at h; simp at h
    | some cs =>
      rw [hc] at h
      cases hb : buildNodes d.node with
      | none => rw [hb] at h; simp at h
      | some ks => rw [hb] at h; injection h with h; rw [← h]

/-- On a configuration from which the cluster config `cfg` is built (no type
assertion fails): `resourceKindClusterUpdate` returns, and it starts with
the backend delete of the stored id.  When that delete succeeds, the next call
is the backend create of `cfg` under the configured name, and these two, in
this order, are the only create or delete calls of the run.  When the delete
fails, it is the only backend call, an error diagnostic is returned, and the
resource data, the stored id among them, are unchanged. -/
theorem update_on_built_config {W : Type} (p : Provider W) (sdk : Sdk) (w : W)
    (d : ResourceData) (cfg : v1alpha4.Cluster) (hcfg : buildConfig d = some cfg) :
    ∃ r, resourceKindClusterUpdate p sdk w d = .ok r ∧
      r.calls.head? = some (Call.delete d.id "") ∧
      cfg.Name = d.name ∧
      ((p.Delete w d.id "").2 = none →
        (∃ rest, r.calls = Call.delete d.id "" :: Call.create d.name cfg :: rest) ∧
        r.calls.filter Call.isMutation = [Call.delete d.id "", Call.create d.name cfg]) ∧
      (∀ e, (p.Delete w d.id "").2 = some e →
        r.calls = [Call.delete d.id ""] ∧ HasError r.diags = true ∧ r.d = d ∧
        r.world = (p.Delete w d.id "").1) := by
  have hname := buildConfig_name d cfg hcfg
  rcases hd : p.Delete w d.id "" with ⟨w1, res⟩
  cases res with
  | none =>
    have hcfg2 : buildConfig (d.SetId "") = some cfg := hcfg
    obtain ⟨r2, rest, hr2, hcalls, hfil⟩ := create_returns p sdk w1 (d.SetId "") cfg hcfg2
    have e1 : (d.SetId "").name = d.name := rfl
    rw [e1] at hcalls
    refine ⟨{ r2 with calls := Call.delete d.id "" :: r2.calls }, ?_, by simp, hname,
      fun _ => ⟨⟨rest, by simp [hcalls]⟩, ?_⟩, fun e he => by simp at he⟩
    · rw [update_of_delete_ok p sdk w w1 d hd, hr2]
    · simp [hcalls, hfil, Call.isMutation]
  | some e =>
    refine ⟨_, update_of_delete_fail p sdk w w1 d e hd, by simp, hname,
      fun he => by simp at he, fun e2 _ => ⟨rfl, by simp [HasError, FromErr], rfl, rfl⟩⟩

/-- On the small backend: renaming `old` to `dev` deletes `old`, then creates
`dev`. -/
theorem update_on_built_config_example :
    ∃ r, resourceKindClusterUpdate (fakeProvider none none) okSdk ["old"]
        { devConfig with id := "old" } = .ok r ∧
      r.calls.filter Call.isMutation = [Call.delete "old" "", Call.create "dev" devCluster] ∧
      r.world = ["dev"] ∧ r.d.id = "dev" :=
  ⟨_, rfl, rfl, rfl, rfl⟩

/-- C3, the code at the failing inputs. When the backend delete of the stored
id succeeds and the configuration holds a nil element in
`containerd_config_patches` (what the SDK delivers for an empty string) or in
`node` (what it delivers for a block whose attributes are all zero),
`resourceKindClusterUpdate` does not return: the unchecked assertion of line
85 or of line 92 fails after the delete.  The delete of the stored id is the
only backend call, the backend create is never invoked, and the world is the
one the delete left. -/
theorem update_crashes_after_delete_on_nil_element {W : Type} (p : Provider W) (sdk : Sdk)
    (w w1 : W) (d : ResourceData)
    (hdel : p.Delete w d.id "" = (w1, none))
    (hnil : none ∈ d.containerd_config_patches ∨ none ∈ d.node) :
    resourceKindClusterUpdate p sdk w d = .error ⟨w1, [Call.delete d.id ""]⟩ := by
  have hcfg : buildConfig (d.SetId "") = none := buildConfig_nil_elem d hnil
  rw [update_of_delete_ok p sdk w w1 d hdel, create_crash p sdk w1 (d.SetId "") hcfg]

/-- C3, the failing input on the small backend: stored id `old`, configured
name `dev`, one control-plane node and `containerd_config_patches = [""]`.
The cluster `old` is deleted, no cluster is created, and the call crashes. -/
theorem update_crashes_after_delete_on_nil_element_witness :
    resourceKindClusterUpdate (fakeProvider none none) okSdk ["old"]
        { devConfig with id := "old", containerd_config_patches := [none] } =
      .error ⟨[], [Call.delete "old" ""]⟩ :=
  update_crashes_after_delete_on_nil_element (fakeProvider none none) okSdk ["old"] []
    { devConfig with id := "old", containerd_config_patches := [none] } rfl
    (Or.inl (by decide))

/-- C4. When the backend delete of `resourceKindClusterUpdate` succeeds and the
backend create that follows (of the config `cfg` built from the
configuration) fails with `e`, the update returns an error diagnostic and the
stored id ends as the empty string; the backend calls were the delete and the
create, and the world is the one the failed create left. -/
theorem update_failed_recreate_leaves_id_empty {W : Type} (p : Provider W) (sdk : Sdk)
    (w w1 w2 : W) (d : ResourceData) (cfg : v1alpha4.Cluster) (e : String)
    (hdel : p.Delete w d.id "" = (w1, none))
    (hcfg : buildConfig d = some cfg)
    (hcr : p.Create w1 d.name cfg = (w2, some e)) :
    ∃ r, resourceKindClusterUpdate p sdk w d = .ok r ∧
      HasError r.diags = true ∧
      r.diags = FromErr ("error creating cluster: " ++ e) ∧
      r.d.id = "" ∧
      r.world = w2 ∧
      r.calls = [Call.delete d.id "", Call.create d.name cfg] ∧
      r.d = { d with id := "" } := by
  have hcfg2 : buildConfig (d.SetId "") = some cfg := hcfg
  have hcr2 : p.Create w1 (d.SetId "").name cfg = (w2, some e) := hcr
  refine ⟨⟨w2, d.SetId "", [Call.delete d.id "", Call.create d.name cfg],
    FromErr ("error creating cluster: " ++ e)⟩, ?_, by simp [HasError, FromErr], rfl, rfl,
    rfl, rfl, rfl⟩
  rw [update_of_delete_ok p sdk w w1 d hdel,
    create_fail p sdk w1 w2 (d.SetId "") cfg e hcfg2 hcr2]
  rfl

/-- C4, on the small backend: the delete of `old` succeeds, the create of
`dev` fails, and the id ends empty. -/
theorem update_failed_recreate_leaves_id_empty_witness :
    ∃ r, resourceKindClusterUpdate (fakeProvider (some "boom") none) okSdk ["old"]
        { devConfig with id := "old" } = .ok r ∧ r.d.id = "" ∧ r.world = [] :=
  match update_failed_recreate_leaves_id_empty (fakeProvider (some "boom") none) okSdk
    ["old"] [] [] { devConfig with id := "old" } devCluster "boom" rfl rfl rfl with
  | ⟨r, h⟩ => ⟨r, h.1, h.2.2.2.1, h.2.2.2.2.1⟩

/-- C5, counterexample. With a backend whose create fails with `boom`, the
diagnostics of an update (delete of `old` succeeded, create failed) and the
diagnostics of a plain create (create failed) are the same single diagnostic. -/
theorem update_recreate_failure_not_distinguished :
    (fakeProvider (some "boom") none).Delete ["old"] "old" "" = ([], none) ∧
    ∃ r r2,
      resourceKindClusterUpdate (fakeProvider (some "boom") none) okSdk ["old"]
        { devConfig with id := "old" } = .ok r ∧
      resourceKindClusterCreate (fakeProvider (some "boom") none) okSdk [] devConfig = .ok r2 ∧
      r.diags = r2.diags ∧
      r2.diags = FromErr "error creating cluster: boom" :=
  ⟨rfl, _, _, rfl, rfl, rfl, rfl⟩

/-- C5, amended. For every backend create error `e`, the diagnostics of an
update whose delete succeeded and whose create failed with `e` equal the
diagnostics of a plain create whose backend create failed with `e`: both are
the one error diagnostic `error creating cluster: e`. -/
theorem update_recreate_failure_same_diagnostics {W V : Type} (p : Provider W)
    (q : Provider V) (sdk sdk2 : Sdk) (w w1 w2 : W) (v v1 : V) (d d2 : ResourceData)
    (cfg cfg2 : v1alpha4.Cluster) (e : String)
    (hdel : p.Delete w d.id "" = (w1, none))
    (hcfg : buildConfig d = some cfg)
    (hcr : p.Create w1 d.name cfg = (w2, some e))
    (hcfg2 : buildConfig d2 = some cfg2)
    (hcr2 : q.Create v d2.name cfg2 = (v1, some e)) :
    ∃ r r2, resourceKindClusterUpdate p sdk w d = .ok r ∧
      resourceKindClusterCreate q sdk2 v d2 = .ok r2 ∧
      r.diags = r2.diags ∧
      r.diags = FromErr ("error creating cluster: " ++ e) := by
  have hcfg3 : buildConfig (d.SetId "") = some cfg := hcfg
  have hcr3 : p.Create w1 (d.SetId "").name cfg = (w2, some e) := hcr
  refine ⟨⟨w2, d.SetId "", [Call.delete d.id "", Call.create d.name cfg],
    FromErr ("error creating cluster: " ++ e)⟩, _, ?_,
    create_fail q sdk2 v v1 d2 cfg2 e hcfg2 hcr2, rfl, rfl⟩
  rw [update_of_delete_ok p sdk w w1 d hdel,
    create_fail p sdk w1 w2 (d.SetId "") cfg e hcfg3 hcr3]
  rfl

/-- C5, amended, on the small backend. -/
theorem update_recreate_failure_same_diagnostics_witness :
    ∃ r, resourceKindClusterUpdate (fakeProvider (some "boom") none) okSdk ["old"]
        { devConfig with id := "old" } = .ok r ∧
      r.diags = FromErr ("error creating cluster: " ++ "boom") :=
  match update_recreate_failure_same_diagnostics (fakeProvider (some "boom") none)
    (fakeProvider (some "boom") none) okSdk okSdk ["old"] [] [] [] []
    { devConfig with id := "old" } devConfig devCluster devCluster "boom"
    rfl rfl rfl rfl rfl with
  | ⟨r, _, h⟩ => ⟨r, h.1, h.2.2.2⟩

/-- C6. When the backend list succeeds with `names`: if the stored id is not
among `names`, `resourceKindClusterRead` sets the id to the empty string,
returns no diagnostics, and its only backend call is the list (nodes are not
listed); if the stored id is among `names`, the stored id is unchanged. -/
theorem read_clears_id_of_absent_cluster {W : Type} (p : Provider W) (sdk : Sdk) (w w1 : W)
    (d : ResourceData) (names : List String)
    (hlist : p.List w = (w1, .ok names)) :
    (d.id ∉ names →
      (resourceKindClusterRead p sdk w d).d.id = "" ∧
      (resourceKindClusterRead p sdk w d).diags = [] ∧
      (resourceKindClusterRead p sdk w d).calls = [Call.list]) ∧
    (d.id ∈ names → (resourceKindClusterRead p sdk w d).d.id = d.id) := by
  constructor
  · intro hin
    rw [read_absent p sdk w w1 d names hlist hin]
    exact ⟨rfl, rfl, rfl⟩
  · intro hin
    exact read_present_id p sdk w w1 d names hlist hin

/-- C6, on the small backend: `gone` is not listed and the id is cleared;
`dev` is listed and the id stays. -/
theorem read_clears_id_of_absent_cluster_witness :
    (resourceKindClusterRead (fakeProvider none none) okSdk ["dev"]
        { devConfig with id := "gone" }).d.id = "" ∧
    (resourceKindClusterRead (fakeProvider none none) okSdk ["dev"]
        { devConfig with id := "dev" }).d.id = "dev" :=
  ⟨((read_clears_id_of_absent_cluster (fakeProvider none none) okSdk ["dev"] ["dev"]
      { devConfig with id := "gone" } ["dev"] rfl).1 (by decide)).1,
    (read_clears_id_of_absent_cluster (fakeProvider none none) okSdk ["dev"] ["dev"]
      { devConfig with id := "dev" } ["dev"] rfl).2 (by decide)⟩

/-- C8, counterexample. A configuration with the empty name, on a backend
whose calls all succeed: `resourceKindClusterCreate` calls the backend create
with the empty name and returns no diagnostics at all. -/
theorem create_with_empty_name_returns_no_error :
    ∃ r, resourceKindClusterCreate (fakeProvider none none) okSdk []
        { devConfig with name := "" } = .ok r ∧
      r.diags = [] ∧
      HasError r.diags = false ∧
      r.calls.head? = some (Call.create "" { devCluster with Name := "" }) :=
  ⟨_, rfl, rfl, rfl, rfl⟩

/-- C8, amended. For every cluster configuration whose name is the empty
string and from which the cluster config `cfg` is built (no type assertion
fails), `resourceKindClusterCreate` validates nothing: it returns, and its
first action is the backend create of `cfg`, whose name is empty, under the
empty name; it returns an error when that backend create fails; and it
returns no diagnostics when the backend create and the two attribute writes
succeed and the backend list succeeds without listing the empty name. -/
theorem create_with_empty_name_is_not_validated {W : Type} (p : Provider W) (sdk : Sdk)
    (w : W) (d : ResourceData) (cfg : v1alpha4.Cluster)
    (hname : d.name = "") (hcfg : buildConfig d = some cfg) :
    cfg.Name = "" ∧
    (∃ r, resourceKindClusterCreate p sdk w d = .ok r ∧
      r.calls.head? = some (Call.create "" cfg)) ∧
    (∀ w1 e, p.Create w "" cfg = (w1, some e) →
      ∃ r, resourceKindClusterCreate p sdk w d = .ok r ∧
        r.diags = FromErr ("error creating cluster: " ++ e) ∧
        HasError r.diags = true ∧
        r.calls = [Call.create "" cfg] ∧ r.world = w1 ∧ r.d = d) ∧
    (∀ w1 w2 names, p.Create w "" cfg = (w1, none) →
      sdk.SetErr_containerd_config_patches cfg.ContainerdConfigPatches = none →
      sdk.SetErr_node (cfg.Nodes.map nodeMapOf) = none →
      p.List w1 = (w2, .ok names) → "" ∉ names →
      ∃ r, resourceKindClusterCreate p sdk w d = .ok r ∧ r.diags = [] ∧ r.d.id = "" ∧
        r.calls = [Call.create "" cfg, Call.list] ∧ r.world = w2) := by
  refine ⟨?_, ?_, ?_, ?_⟩
  · rw [buildConfig_name d cfg hcfg, hname]
  · obtain ⟨r, rest, hr, hcalls, _⟩ := create_returns p sdk w d cfg hcfg
    refine ⟨r, hr, ?_⟩
    rw [hcalls, hname]
    rfl
  · intro w1 e hcr
    rw [← hname] at hcr
    exact ⟨_, create_fail p sdk w w1 d cfg e hcfg hcr, rfl, by simp [HasError, FromErr],
      by rw [hname], rfl, rfl⟩
  · intro w1 w2 names hcr h1 h2 hlist hin
    rw [← hname] at hcr hin
    refine ⟨_, create_of_ok p sdk w w1 d cfg hcfg hcr h1 h2, ?_, ?_, ?_, ?_⟩
    · rw [read_absent p sdk w1 w2 _ names hlist hin]
    · rw [read_absent p sdk w1 w2 _ names hlist hin]
      rfl
    · rw [read_absent p sdk w1 w2 _ names hlist hin, hname]
    · rw [read_absent p sdk w1 w2 _ names hlist hin]

/-- C8, amended, on the small backend: with the empty name and a failing
backend create the error is the backend one. -/
theorem create_with_empty_name_is_not_validated_witness :
    ∃ r, resourceKindClusterCreate (fakeProvider (some "boom") none) okSdk []
        { devConfig with name := "" } = .ok r ∧
      r.diags = FromErr ("error creating cluster: " ++ "boom") :=
  match (create_with_empty_name_is_not_validated (fakeProvider (some "boom") none) okSdk []
    { devConfig with name := "" } { devCluster with Name := "" } rfl rfl).2.2.1 [] "boom" rfl with
  | ⟨r, h⟩ => ⟨r, h.1, h.2.1⟩

/-- C9, counterexample. On a backend whose create succeeds but whose list does
not show the cluster, `resourceKindClusterCreate` of `dev` ends with the
stored id empty, not `dev`. -/
theorem create_id_cleared_when_list_omits_cluster :
    buildConfig devConfig = some devCluster ∧
    (forgetfulProvider.Create () devConfig.name devCluster).2 = none ∧
    ∃ r, resourceKindClusterCreate forgetfulProvider okSdk () devConfig = .ok r ∧
      r.d.id = "" ∧ r.d.id ≠ devConfig.name :=
  ⟨rfl, rfl, _, rfl, rfl, by decide⟩

/-- C9, amended. Whenever the backend create succeeds, `resourceKindClusterCreate`
returns and ends with the stored id equal to the configured name, unless both
attribute writes succeed and the backend list that follows succeeds without
that name: then the read-back clears the stored id to the empty string. -/
theorem create_stores_name_unless_list_omits_it {W : Type} (p : Provider W) (sdk : Sdk)
    (w w1 : W) (d : ResourceData) (cfg : v1alpha4.Cluster)
    (hcfg : buildConfig d = some cfg)
    (hcr : p.Create w d.name cfg = (w1, none)) :
    ∃ r, resourceKindClusterCreate p sdk w d = .ok r ∧
      ((sdk.SetErr_containerd_config_patches cfg.ContainerdConfigPatches = none →
          sdk.SetErr_node (cfg.Nodes.map nodeMapOf) = none →
          ∀ names, (p.List w1).2 = .ok names → d.name ∈ names) →
        r.d.id = d.name) ∧
      (∀ names,
        sdk.SetErr_containerd_config_patches cfg.ContainerdConfigPatches = none →
        sdk.SetErr_node (cfg.Nodes.map nodeMapOf) = none →
        (p.List w1).2 = .ok names → d.name ∉ names →
        r.d.id = "") := by
  cases h1 : sdk.SetErr_containerd_config_patches cfg.ContainerdConfigPatches with
  | some e =>
    refine ⟨⟨w1, d.SetId d.name, [Call.create d.name cfg],
      FromErr ("error setting containerd_config_patches: " ++ e)⟩, ?_, fun _ => rfl,
      fun names h => by simp at h⟩
    simp [resourceKindClusterCreate, hcfg, hcr, ResourceData.Set_containerd_config_patches, h1]
  | none =>
    cases h2 : sdk.SetErr_node (cfg.Nodes.map nodeMapOf) with
    | some e =>
      refine ⟨⟨w1,
          { d with
            id := d.name
            containerd_config_patches := cfg.ContainerdConfigPatches.map some },
          [Call.create d.name cfg], FromErr ("error setting node config: " ++ e)⟩, ?_,
        fun _ => rfl, fun names _ h => by simp at h⟩
      simp [resourceKindClusterCreate, hcfg, hcr, ResourceData.Set_containerd_config_patches,
        h1, ResourceData.Set_node, h2, ResourceData.SetId]
    | none =>
      refine ⟨_, create_of_ok p sdk w w1 d cfg hcfg hcr h1 h2, ?_, ?_⟩
      · intro hall
        rcases hl : p.List w1 with ⟨w2, res⟩
        cases res with
        | error e => rw [read_list_error p sdk w1 w2 _ e hl]
        | ok names =>
          have hin : d.name ∈ names := hall rfl rfl names (by rw [hl])
          exact read_present_id p sdk w1 w2 _ names hl hin
      · intro names _ _ hl hnot
        rcases hl2 : p.List w1 with ⟨w2, res⟩
        rw [hl2] at hl
        simp only at hl
        subst hl
        show (resourceKindClusterRead p sdk w1 _).d.id = ""
        rw [read_absent p sdk w1 w2 _ names hl2 hnot]
        rfl

/-- C9, amended, on the small backend: the scenario of the specification,
cluster `dev` with one control-plane node, ends with stored id `dev`. -/
theorem create_stores_name_unless_list_omits_it_witness :
    ∃ r, resourceKindClusterCreate (fakeProvider none none) okSdk [] devConfig = .ok r ∧
      r.d.id = "dev" :=
  match create_stores_name_unless_list_omits_it (fakeProvider none none) okSdk [] ["dev"]
    devConfig devCluster rfl rfl with
  | ⟨r, h⟩ => ⟨r, h.1, h.2.1 (fun _ _ names hn => by
      have e : names = ["dev"] := by
        have h2 : (Except.ok ["dev"] : Except String (List String)) = Except.ok names := hn
        injection h2 with h3
        exact h3.symm
      rw [e]
      decide)⟩

/-- C10. When the stored id is among the clusters the backend lists, the
backend lists the nodes `nodes` of that cluster, every `Role()` call succeeds
(giving `roles`, one per node, in order) and `d.Set` accepts the value,
`resourceKindClusterRead` sets the `node` attribute to a list with one entry
per node, in the backend order, where an entry has role `control-plane` when
the node role is exactly `control-plane` and role `worker` for every other
role string, and holds no other key; no diagnostics are returned. -/
theorem read_sets_node_roles {W : Type} (p : Provider W) (sdk : Sdk) (w w1 w2 : W)
    (d : ResourceData) (names : List String) (nodes : List NodeHandle) (roles : List String)
    (hlist : p.List w = (w1, .ok names)) (hin : d.id ∈ names)
    (hnodes : p.ListNodes w1 d.id = (w2, .ok nodes))
    (hroles : rolesOf p w2 nodes = some roles)
    (hset : sdk.SetErr_node (roles.map (fun r =>
      { role := if r = "control-plane" then "control-plane" else "worker",
        extra_mounts := none, kube_adm_config_patches := none })) = none) :
    (resourceKindClusterRead p sdk w d).d.node =
        roles.map (fun r =>
          some { role := if r = "control-plane" then "control-plane" else "worker",
                 extra_mounts := none, kube_adm_config_patches := none }) ∧
      (resourceKindClusterRead p sdk w d).d.node.length = nodes.length ∧
      roles.length = nodes.length ∧
      (resourceKindClusterRead p sdk w d).diags = [] ∧
      (resourceKindClusterRead p sdk w d).d.id = d.id := by
  have hex : clusterExistsLoop d.id names = true := (clusterExistsLoop_iff d.id names).2 hin
  obtain ⟨hlen, w3, hloop⟩ := nodeConfigsLoop_of_roles p w2 nodes roles hroles
  have key : resourceKindClusterRead p sdk w d =
      ⟨w3, { d with node := (roles.map (fun r =>
          { role := if r = "control-plane" then "control-plane" else "worker",
            extra_mounts := none, kube_adm_config_patches := none })).map some },
        [Call.list, Call.listNodes d.id] ++ nodes.map Call.role, []⟩ := by
    simp [resourceKindClusterRead, ResourceData.Id, hlist, hex, hnodes, hloop,
      ResourceData.Set_node, hset]
  rw [key]
  simp [hlen]

/-- C10, on the small backend: the nodes `cp`, `lb`, `w1` have roles
`control-plane`, `external-load-balancer`, `worker`, read back as
`control-plane`, `worker`, `worker`. -/
theorem read_sets_node_roles_witness :
    (resourceKindClusterRead (fakeProvider none none) okSdk ["dev"]
        { devConfig with id := "dev" }).d.node =
      [some { role := "control-plane", extra_mounts := none, kube_adm_config_patches := none },
        some { role := "worker", extra_mounts := none, kube_adm_config_patches := none },
        some { role := "worker", extra_mounts := none, kube_adm_config_patches := none }] :=
  (read_sets_node_roles (fakeProvider none none) okSdk ["dev"] ["dev"] ["dev"]
    { devConfig with id := "dev" } ["dev"] ["cp", "lb", "w1"]
    ["control-plane", "external-load-balancer", "worker"]
    rfl (by decide) rfl rfl rfl).1

end clusterkind
